import Mathlib

/-!
Shallow embedding of `examples/offline_inference/audio_language.py`.

The script selects one of several preset audio-language-model prompt
builders, builds a request record, merges engine limits and issues a
single `llm.generate` call.  External effects (HuggingFace tokenizers,
`snapshot_download`, audio decoding) are modelled by an explicit `Env`
of abstract functions; everything the script itself computes (string
formatting, dictionary merging, list replication, truthiness branches,
assertions) is translated directly from the source.
-/

/-- Opaque stand-in for a resolved `(waveform array, sample rate)` pair of an
audio asset (`AudioAsset.audio_and_sample_rate` in the source); the raw
samples live outside the script, so the pair is identified by a tag. -/
structure AudioData where
  tag : String
deriving DecidableEq, Repr

/-- Model of `vllm.assets.audio.AudioAsset`: a named bundled audio sample that
resolves to a `(waveform, sample rate)` pair. -/
structure AudioAsset where
  name : String
  audio_and_sample_rate : AudioData
deriving DecidableEq, Repr

/-- Line 23: `audio_assets = [AudioAsset("mary_had_lamb"), AudioAsset("winning_call")]`. -/
def audio_assets : List AudioAsset :=
  [⟨"mary_had_lamb", ⟨"mary_had_lamb"⟩⟩, ⟨"winning_call", ⟨"winning_call"⟩⟩]

/-- Lines 24-28: `question_per_audio_count`, keyed by audio count. -/
def question_per_audio_count : List (Nat × String) :=
  [(0, "What is 1+1?"),
   (1, "What is recited in the audio?"),
   (2, "What sport and what nursery rhyme are referenced?")]

/-- Model of `vllm.lora.request.LoRARequest(name, id, path)`. -/
structure LoRARequest where
  name : String
  id : Nat
  path : String
deriving DecidableEq, Repr

/-- The `EngineArgs` fields this script sets.  Fields the builders omit keep
their `none` / `false` defaults. -/
structure EngineArgs where
  model : String
  max_model_len : Option Nat := none
  max_num_seqs : Option Nat := none
  limit_mm_per_prompt : Option (List (String × Nat)) := none
  trust_remote_code : Bool := false
  enable_lora : Bool := false
  max_lora_rank : Option Nat := none
  config_format : Option String := none
  load_format : Option String := none
  tokenizer_mode : Option String := none
  enforce_eager : Option Bool := none
  enable_chunked_prefill : Option Bool := none
deriving DecidableEq, Repr

/-- Dynamically-typed value bound to the `prompt_token_ids` field.  The class
declaration (line 34) annotates it as `dict[str, list[int]]` (a mapping from a
channel name to token ids), but Python does not enforce annotations, so the
field can also hold the bare `list[int]` that `run_voxtral` assigns. -/
inductive TokenPayload where
  | asDict : List (String × List Int) → TokenPayload
  | asList : List Int → TokenPayload
deriving DecidableEq, Repr

/-- Lines 31-37: the `ModelRequestData` NamedTuple. -/
structure ModelRequestData where
  engine_args : EngineArgs
  prompt : Option String := none
  prompt_token_ids : Option TokenPayload := none
  multi_modal_data : Option (List (String × List AudioData)) := none
  stop_token_ids : Option (List Int) := none
  lora_requests : Option (List LoRARequest) := none
deriving DecidableEq, Repr

/-- External collaborators the builders call (tokenizers, chat templates,
`snapshot_download`).  Their outputs are opaque to the script, so they are
parameters of the embedding. -/
structure Env where
  /-- `tokenizer.encode_chat_completion(req).tokens` in `run_voxtral`,
  as a function of the question and the audio count. -/
  voxtralTokens : String → Nat → List Int
  /-- the processed `(audio_array, sampling_rate)` pairs `tokens.audios`
  produced by the Voxtral tokenizer. -/
  voxtralAudios : String → Nat → List AudioData
  /-- `tokenizer.convert_tokens_to_ids` of the MiniCPM-O tokenizer. -/
  minicpmoTokenId : String → Int
  /-- `tokenizer.apply_chat_template` of the Ultravox tokenizer, as a function
  of the single user message's content. -/
  ultravoxChatTemplate : String → String
  /-- `snapshot_download("microsoft/Phi-4-multimodal-instruct")`. -/
  phi4mmPath : String
  /-- `snapshot_download("microsoft/Phi-4-multimodal-instruct", revision="refs/pr/70")`. -/
  phi4MultimodalPath : String

/-- Python string repetition `s * n`. -/
def strRepeat (s : String) : Nat → String
  | 0 => ""
  | n + 1 => s ++ strRepeat s n

/-- Lines 46-96, `run_voxtral`.  Tokenization is delegated to `env`; the
builder populates `prompt_token_ids` (with the bare token list the tokenizer
returns) and `multi_modal_data`, and leaves `prompt` unset.  Lines 73-76 index
`audio_assets[i]` for `i < audio_count`, which raises `IndexError` when the
count exceeds the number of bundled assets; the guard models that. -/
def run_voxtral (env : Env) (question : String) (audio_count : Nat) :
    Except String ModelRequestData :=
  if audio_count ≤ audio_assets.length then
    Except.ok
      { engine_args :=
          { model := "mistralai/Voxtral-Mini-3B-2507"
            max_model_len := some 8192
            max_num_seqs := some 2
            limit_mm_per_prompt := some [("audio", audio_count)]
            config_format := some "mistral"
            load_format := some "mistral"
            tokenizer_mode := some "mistral"
            enforce_eager := some true
            enable_chunked_prefill := some false }
        prompt_token_ids := some (TokenPayload.asList (env.voxtralTokens question audio_count))
        multi_modal_data := some [("audio", env.voxtralAudios question audio_count)] }
  else
    Except.error "IndexError: list index out of range"

/-- Lines 100-127, `run_granite_speech`. -/
def run_granite_speech (_env : Env) (question : String) (audio_count : Nat) :
    Except String ModelRequestData :=
  Except.ok
    { engine_args :=
        { model := "ibm-granite/granite-speech-3.3-8b"
          trust_remote_code := true
          max_model_len := some 2048
          max_num_seqs := some 2
          enable_lora := true
          max_lora_rank := some 64
          limit_mm_per_prompt := some [("audio", audio_count)] }
      prompt := some
        ("<|start_of_role|>system<|end_of_role|>Knowledge Cutoff Date: April 2024.\nToday's Date: December 19, 2024.\nYou are Granite, developed by IBM. You are a helpful AI assistant<|end_of_text|>\n<|start_of_role|>user<|end_of_role|>"
          ++ strRepeat "<|audio|>" audio_count ++ question
          ++ "<|end_of_text|>\n<|start_of_role|>assistant<|end_of_role|>")
      lora_requests := some [⟨"speech", 1, "ibm-granite/granite-speech-3.3-8b"⟩] }

/-- Lines 131-159, `run_minicpmo`.  The chat template is given literally in the
source (line 146), so its rendering over the single user message with
`add_generation_prompt=True` is computed here; only `convert_tokens_to_ids`
is delegated to `env`. -/
def run_minicpmo (env : Env) (question : String) (audio_count : Nat) :
    Except String ModelRequestData :=
  Except.ok
    { engine_args :=
        { model := "openbmb/MiniCPM-o-2_6"
          trust_remote_code := true
          max_model_len := some 4096
          max_num_seqs := some 2
          limit_mm_per_prompt := some [("audio", audio_count)] }
      prompt := some
        ("<|im_start|>user\n"
          ++ strRepeat "(<audio>./</audio>)" audio_count ++ "\n" ++ question
          ++ "<|im_end|>\n<|im_start|>assistant\n<|spk_bos|><|spk|><|spk_eos|><|tts_bos|>")
      stop_token_ids := some [env.minicpmoTokenId "<|im_end|>", env.minicpmoTokenId "<|endoftext|>"] }

/-- Concatenation of `f"<|audio_{i + 1}|>"` for `i` in `range(audio_count)`
(line 172). -/
def phi4mmPlaceholders : Nat → String
  | 0 => ""
  | n + 1 => phi4mmPlaceholders n ++ "<|audio_" ++ toString (n + 1) ++ "|>"

/-- Lines 163-190, `run_phi4mm`.  `snapshot_download` is delegated to `env`;
`os.path.join(model_path, "speech-lora")` becomes path concatenation. -/
def run_phi4mm (env : Env) (question : String) (audio_count : Nat) :
    Except String ModelRequestData :=
  Except.ok
    { engine_args :=
        { model := env.phi4mmPath
          trust_remote_code := true
          max_model_len := some 12800
          max_num_seqs := some 2
          enable_lora := true
          max_lora_rank := some 320
          limit_mm_per_prompt := some [("audio", audio_count)] }
      prompt := some ("<|user|>" ++ phi4mmPlaceholders audio_count ++ question ++ "<|end|><|assistant|>")
      lora_requests := some [⟨"speech", 1, env.phi4mmPath ++ "/speech-lora"⟩] }

/-- Lines 193-221, `run_phi4_multimodal`. -/
def run_phi4_multimodal (env : Env) (question : String) (audio_count : Nat) :
    Except String ModelRequestData :=
  Except.ok
    { engine_args :=
        { model := env.phi4MultimodalPath
          max_model_len := some 12800
          max_num_seqs := some 2
          enable_lora := true
          max_lora_rank := some 320
          limit_mm_per_prompt := some [("audio", audio_count)] }
      prompt := some ("<|user|>" ++ strRepeat "<|audio|>" audio_count ++ question ++ "<|end|><|assistant|>")
      lora_requests := some [⟨"speech", 1, env.phi4MultimodalPath ++ "/speech-lora"⟩] }

/-- Concatenation of `f"Audio {idx + 1}: <|audio_bos|><|AUDIO|><|audio_eos|>\n"`
for `idx` in `range(audio_count)` (lines 235-240). -/
def qwen2AudioInPrompt : Nat → String
  | 0 => ""
  | n + 1 => qwen2AudioInPrompt n
      ++ "Audio " ++ toString (n + 1) ++ ": <|audio_bos|><|AUDIO|><|audio_eos|>\n"

/-- Lines 225-252, `run_qwen2_audio`. -/
def run_qwen2_audio (_env : Env) (question : String) (audio_count : Nat) :
    Except String ModelRequestData :=
  Except.ok
    { engine_args :=
        { model := "Qwen/Qwen2-Audio-7B-Instruct"
          max_model_len := some 4096
          max_num_seqs := some 5
          limit_mm_per_prompt := some [("audio", audio_count)] }
      prompt := some
        ("<|im_start|>system\nYou are a helpful assistant.<|im_end|>\n<|im_start|>user\n"
          ++ qwen2AudioInPrompt audio_count ++ question
          ++ "<|im_end|>\n<|im_start|>assistant\n") }

/-- Lines 256-285, `run_qwen2_5_omni`. -/
def run_qwen2_5_omni (_env : Env) (question : String) (audio_count : Nat) :
    Except String ModelRequestData :=
  Except.ok
    { engine_args :=
        { model := "Qwen/Qwen2.5-Omni-7B"
          max_model_len := some 4096
          max_num_seqs := some 5
          limit_mm_per_prompt := some [("audio", audio_count)] }
      prompt := some
        ("<|im_start|>system\nYou are Qwen, a virtual human developed by the Qwen Team, Alibaba Group, capable of perceiving auditory and visual inputs, as well as generating text and speech.<|im_end|>\n<|im_start|>user\n"
          ++ strRepeat "<|audio_bos|><|AUDIO|><|audio_eos|>\n" audio_count ++ question
          ++ "<|im_end|>\n<|im_start|>assistant\n") }

/-- Lines 289-309, `run_ultravox`.  The chat template lives in the downloaded
tokenizer, so rendering is delegated to `env`, applied to the single user
message's content (line 293). -/
def run_ultravox (env : Env) (question : String) (audio_count : Nat) :
    Except String ModelRequestData :=
  Except.ok
    { engine_args :=
        { model := "fixie-ai/ultravox-v0_5-llama-3_2-1b"
          max_model_len := some 4096
          max_num_seqs := some 5
          trust_remote_code := true
          limit_mm_per_prompt := some [("audio", audio_count)] }
      prompt := some (env.ultravoxChatTemplate (strRepeat "<|audio|>\n" audio_count ++ question)) }

/-- Lines 313-329, `run_whisper`.  Line 314 asserts `audio_count == 1`. -/
def run_whisper (_env : Env) (question : String) (audio_count : Nat) :
    Except String ModelRequestData :=
  if audio_count = 1 then
    Except.ok
      { engine_args :=
          { model := "openai/whisper-large-v3-turbo"
            max_model_len := some 448
            max_num_seqs := some 5
            limit_mm_per_prompt := some [("audio", audio_count)] }
        prompt := some "<|startoftranscript|>" }
  else
    Except.error "AssertionError: Whisper only support single audio input per prompt"

/-- Common type of the nine builder functions. -/
abbrev BuilderFn := Env → String → Nat → Except String ModelRequestData

/-- Lines 332-342: the registry `model_example_map`. -/
def model_example_map : List (String × BuilderFn) :=
  [("voxtral", run_voxtral),
   ("granite_speech", run_granite_speech),
   ("minicpmo", run_minicpmo),
   ("phi4_mm", run_phi4mm),
   ("phi4_multimodal", run_phi4_multimodal),
   ("qwen2_audio", run_qwen2_audio),
   ("qwen2_5_omni", run_qwen2_5_omni),
   ("ultravox", run_ultravox),
   ("whisper", run_whisper)]

/-- Parsed command-line arguments (`parse_args`, lines 345-375).  `argparse`
restricts `--num-audios` to `{0, 1, 2}` and parses `--num-prompts` as an
arbitrary integer. -/
structure Args where
  model_type : String
  num_prompts : Int
  num_audios : Nat
  seed : Option Int
deriving DecidableEq, Repr

/-- Line 389: `default_limits = {"image": 0, "video": 0, "audio": 0}`. -/
def default_limits : List (String × Nat) :=
  [("image", 0), ("video", 0), ("audio", 0)]

/-- Python dictionary union `d1 | d2` on association lists without duplicate
keys: keys of `d1` in order, values overridden by `d2` where present, followed
by the keys of `d2` absent from `d1`, in their order. -/
def pyDictUnion (d1 d2 : List (String × Nat)) : List (String × Nat) :=
  (d1.map fun kv =>
    match d2.lookup kv.1 with
    | some v => (kv.1, v)
    | none => kv)
  ++ d2.filter fun kv => (d1.lookup kv.1).isNone

/-- Python `x or {}` applied to an optional dictionary (line 391): `None` and
the empty dictionary are falsy. -/
def pyOrEmpty (o : Option (List (String × Nat))) : List (String × Nat) :=
  match o with
  | none => []
  | some d => d

/-- Python truthiness of `req_data.prompt` (line 416): `None` and the empty
string are falsy. -/
def pyTruthyStr : Option String → Bool
  | none => false
  | some s => s ≠ ""

/-- Lines 406-411: the default multimodal payload built from the bundled
assets when the builder supplied none. -/
def mmDefault (audio_count : Nat) : List (String × List AudioData) :=
  if 0 < audio_count then
    [("audio", (audio_assets.take audio_count).map AudioAsset.audio_and_sample_rate)]
  else []

/-- Lines 403-411: `mm_data = req_data.multi_modal_data; if not mm_data: ...`.
Both `None` and an empty dictionary are falsy and get replaced. -/
def resolveMM (mm : Option (List (String × List AudioData))) (audio_count : Nat) :
    List (String × List AudioData) :=
  match mm with
  | none => mmDefault audio_count
  | some d => if d.isEmpty then mmDefault audio_count else d

/-- One entry of the `inputs` dictionary passed to `llm.generate`
(lines 414-419).  The `multi_modal_data` key is always present; exactly one of
the other two keys is set, chosen by the truthiness of `req_data.prompt`. -/
structure InputRecord where
  prompt : Option String
  prompt_token_ids : Option TokenPayload
  multi_modal_data : List (String × List AudioData)
deriving DecidableEq, Repr

/-- The first positional argument of `llm.generate`: a single input dictionary
when `num_prompts == 1`, a list of them otherwise (lines 421-423). -/
inductive GenInputs where
  | single : InputRecord → GenInputs
  | batch : List InputRecord → GenInputs
deriving DecidableEq, Repr

/-- The input records a `GenInputs` value carries. -/
def GenInputs.records : GenInputs → List InputRecord
  | .single r => [r]
  | .batch l => l

/-- Everything `main` hands to the engine: the merged `EngineArgs` plus seed
used to construct `LLM`, the stop-token ids of the sampling configuration, and
the `inputs` / `lora_request` arguments of `llm.generate` (lines 394-433). -/
structure RunResult where
  engine_args : EngineArgs
  seed : Option Int
  stop_token_ids : Option (List Int)
  inputs : GenInputs
  lora_request : Option (List LoRARequest)
deriving DecidableEq, Repr

/-- Lines 379-386 of `main`: the registry lookup (raising `ValueError` for an
unknown key) followed by the builder call on
`question_per_audio_count[audio_count]` (raising `KeyError` for a count
outside the table). -/
def builtRequest (env : Env) (args : Args) : Except String ModelRequestData :=
  match model_example_map.lookup args.model_type with
  | none => Except.error ("Model type " ++ args.model_type ++ " is not supported.")
  | some builder =>
    match question_per_audio_count.lookup args.num_audios with
    | none => Except.error "KeyError: num_audios"
    | some question => builder env question args.num_audios

/-- Lines 414-419: the single `inputs` dictionary, built from the resolved
multimodal payload plus either the prompt (when truthy) or the pre-tokenized
prompt. -/
def genInput (req : ModelRequestData) (audio_count : Nat) : InputRecord :=
  if pyTruthyStr req.prompt then
    { prompt := req.prompt, prompt_token_ids := none,
      multi_modal_data := resolveMM req.multi_modal_data audio_count }
  else
    { prompt := none, prompt_token_ids := req.prompt_token_ids,
      multi_modal_data := resolveMM req.multi_modal_data audio_count }

/-- Lines 425-427: `req_data.lora_requests * args.num_prompts if
req_data.lora_requests else None`.  Both `None` and the empty list are falsy;
Python list repetition `l * np` is flattened replication. -/
def loraFor (lr : Option (List LoRARequest)) (np : Nat) : Option (List LoRARequest) :=
  match lr with
  | none => none
  | some l => if l.isEmpty then none else some (List.flatten (List.replicate np l))

/-- Lines 388-433 of `main`, after the builder returned: merge the default
per-modality limits with the builder's (line 390), assert `num_prompts > 0`
(line 413; the only failure point in this stretch, so hoisted to the front),
build the input record(s) (lines 414-423) and the optional LoRA request list
(lines 425-427), and collect what gets passed to `LLM` and `llm.generate`. -/
def runRequest (args : Args) (req : ModelRequestData) : Except String RunResult :=
  if args.num_prompts ≤ 0 then Except.error "AssertionError: num_prompts" else
  Except.ok
    { engine_args :=
        { req.engine_args with
          limit_mm_per_prompt :=
            some (pyDictUnion default_limits (pyOrEmpty req.engine_args.limit_mm_per_prompt)) }
      seed := args.seed
      stop_token_ids := req.stop_token_ids
      inputs :=
        if 1 < args.num_prompts then
          GenInputs.batch (List.replicate args.num_prompts.toNat (genInput req args.num_audios))
        else GenInputs.single (genInput req args.num_audios)
      lora_request := loraFor req.lora_requests args.num_prompts.toNat }

namespace audio_language

/-- Lines 378-433, `main`: build the request, then run it. -/
def main (env : Env) (args : Args) : Except String RunResult :=
  match builtRequest env args with
  | Except.error e => Except.error e
  | Except.ok req => runRequest args req

end audio_language

/-- Whether an `Except` value is a success. -/
def exceptOk {α : Type} (e : Except String α) : Bool :=
  match e with
  | Except.ok _ => true
  | Except.error _ => false

/-- The prompt string of a successfully built request, defaulting to `""`. -/
def promptOf (e : Except String ModelRequestData) : String :=
  match e with
  | Except.ok r => r.prompt.getD ""
  | Except.error _ => ""

/-- Whether `pat` is a prefix of `s`, on character lists. -/
def startsWithChars : List Char → List Char → Bool
  | [], _ => true
  | _ :: _, [] => false
  | a :: as, b :: bs => a == b && startsWithChars as bs

/-- Number of positions of `s` at which `pat` occurs. -/
def countOccChars (pat : List Char) : List Char → Nat
  | [] => 0
  | c :: rest =>
    (if startsWithChars pat (c :: rest) then 1 else 0) + countOccChars pat rest

/-- Number of positions of `s` at which the (non-empty) pattern occurs. -/
def strOccurrences (pat s : String) : Nat :=
  countOccChars pat.data s.data

/-- Whether `pat` occurs somewhere in `s`. -/
def occursInStr (pat s : String) : Bool :=
  decide (0 < strOccurrences pat s)

/-- Concrete environment used by the witnesses. -/
def env0 : Env :=
  { voxtralTokens := fun _ n => List.replicate (n + 1) 7
    voxtralAudios := fun _ n => List.replicate n ⟨"voxtral_audio"⟩
    minicpmoTokenId := fun _ => 0
    ultravoxChatTemplate := fun content => "<|user|>" ++ content ++ "<|assistant|>"
    phi4mmPath := "snapshot/phi4mm"
    phi4MultimodalPath := "snapshot/phi4multimodal" }

/-- The audio counts a model key is exercised with in this development:
`{0, 1, 2}` for every key except `whisper`, which supports exactly one. -/
def supportedCounts (key : String) : List Nat :=
  if key = "whisper" then [1] else [0, 1, 2]

/-- The question keyed by audio count 2 in `question_per_audio_count`. -/
def twoAudioQuestion : String :=
  (question_per_audio_count.lookup 2).getD ""

/-- The audio placeholder block of the Qwen2-Audio prompt. -/
def audioBlock : String := "<|audio_bos|><|AUDIO|><|audio_eos|>"

set_option maxRecDepth 10000

/-- C1: for every registered model key, calling its builder with each audio
count it supports (0, 1 or 2; exactly 1 for whisper) returns a
`ModelRequestData` in which exactly one of `prompt` / `prompt_token_ids` is
populated: never both, never neither. -/
theorem registered_builders_exactly_one_populated
    (env : Env) (q : String) (key : String) (b : BuilderFn)
    (hmem : (key, b) ∈ model_example_map) (n : Nat) (hn : n ≤ 2)
    (hw : key = "whisper" → n = 1) :
    ∃ r, b env q n = Except.ok r ∧ r.prompt.isSome ≠ r.prompt_token_ids.isSome := by
  simp only [model_example_map, List.mem_cons, List.not_mem_nil, or_false,
    Prod.mk.injEq] at hmem
  rcases hmem with ⟨hk, hb⟩ | ⟨hk, hb⟩ | ⟨hk, hb⟩ | ⟨hk, hb⟩ | ⟨hk, hb⟩ | ⟨hk, hb⟩ |
      ⟨hk, hb⟩ | ⟨hk, hb⟩ | ⟨hk, hb⟩ <;> subst hk <;> subst hb
  · interval_cases n <;> exact ⟨_, rfl, by simp⟩
  · exact ⟨_, rfl, by simp⟩
  · exact ⟨_, rfl, by simp⟩
  · exact ⟨_, rfl, by simp⟩
  · exact ⟨_, rfl, by simp⟩
  · exact ⟨_, rfl, by simp⟩
  · exact ⟨_, rfl, by simp⟩
  · exact ⟨_, rfl, by simp⟩
  · obtain rfl := hw rfl
    exact ⟨_, rfl, by simp⟩

/-- Witness for C1 at the whisper entry with audio count 1. -/
theorem registered_builders_exactly_one_populated_witness :
    ∃ r, run_whisper env0 "What is recited in the audio?" 1 = Except.ok r ∧
      r.prompt.isSome ≠ r.prompt_token_ids.isSome :=
  registered_builders_exactly_one_populated env0 "What is recited in the audio?"
    "whisper" run_whisper (by simp [model_example_map]) 1 (by decide) (fun _ => rfl)

/-- C2: the merge `default_limits | dict(limit_mm_per_prompt or dict())` that
`main` performs (line 390) maps the builder's declared limits over the default
map: a declared `audio` limit overrides the zero default while `image` and
`video` stay 0, and an absent (`None`) builder map yields the all-zero map. -/
theorem main_limit_merge (n : Nat) :
    pyDictUnion default_limits (pyOrEmpty (some [("audio", n)])) =
      [("image", 0), ("video", 0), ("audio", n)] ∧
    pyDictUnion default_limits (pyOrEmpty none) =
      [("image", 0), ("video", 0), ("audio", 0)] := by
  constructor <;> rfl

/-- C3: the whisper builder succeeds exactly when the audio count is 1; any
other count hits the assertion on line 314. -/
theorem run_whisper_requires_exactly_one_audio (env : Env) (q : String) (n : Nat) :
    exceptOk (run_whisper env q n) = decide (n = 1) := by
  by_cases h : n = 1 <;> simp [run_whisper, exceptOk, h]

/-- C5: the whisper builder at audio count 1 returns the literal prompt
`<|startoftranscript|>` with `max_model_len=448`, `max_num_seqs=5` and an
audio limit of 1. -/
theorem run_whisper_single_audio_request (env : Env) (q : String) :
    ∃ r, run_whisper env q 1 = Except.ok r ∧
      r.prompt = some "<|startoftranscript|>" ∧
      r.engine_args.max_model_len = some 448 ∧
      r.engine_args.max_num_seqs = some 5 ∧
      r.engine_args.limit_mm_per_prompt = some [("audio", 1)] :=
  ⟨_, rfl, rfl, rfl, rfl, rfl⟩

/-- Counterexample for C6: in the prompt the qwen2_audio builder returns for
the two-audio question, the audio placeholder block is NOT immediately
followed by the question text — a newline stands in between — neither as a
bare block nor as the labeled `Audio 2:` block. -/
theorem qwen2_audio_block_not_immediately_followed_by_question :
    occursInStr (audioBlock ++ twoAudioQuestion)
        (promptOf (run_qwen2_audio env0 twoAudioQuestion 2)) = false ∧
    occursInStr ("Audio 2: " ++ audioBlock ++ twoAudioQuestion)
        (promptOf (run_qwen2_audio env0 twoAudioQuestion 2)) = false := by
  constructor <;> decide

/-- C6 (amended): the qwen2_audio prompt for audio count 2 and the two-audio
question contains exactly two occurrences of the audio placeholder block,
labeled `Audio 1:` and `Audio 2:` respectively, each block line ending in a
newline, and the second labeled block is followed by its newline and then
immediately the question text. -/
theorem qwen2_audio_two_labeled_blocks_then_question :
    strOccurrences audioBlock (promptOf (run_qwen2_audio env0 twoAudioQuestion 2)) = 2 ∧
    occursInStr ("Audio 1: " ++ audioBlock ++ "\nAudio 2: " ++ audioBlock ++ "\n" ++ twoAudioQuestion)
        (promptOf (run_qwen2_audio env0 twoAudioQuestion 2)) = true := by
  constructor <;> decide

/-- C7: an unregistered model key makes `main` fail with the `ValueError`
message before any builder runs, while for a registered key the request is
exactly what the matching builder returns on the question selected by the
audio count. -/
theorem main_rejects_unknown_model_key (env : Env) (args : Args) :
    (model_example_map.lookup args.model_type = none →
      audio_language.main env args =
        Except.error ("Model type " ++ args.model_type ++ " is not supported.")) ∧
    (∀ b, model_example_map.lookup args.model_type = some b →
      ∀ q, question_per_audio_count.lookup args.num_audios = some q →
        builtRequest env args = b env q args.num_audios) := by
  constructor
  · intro h
    simp [audio_language.main, builtRequest, h]
  · intro b hb q hq
    simp [builtRequest, hb, hq]

/-- Witness for C7 at the unregistered key `nope`. -/
theorem main_rejects_unknown_model_key_witness :
    audio_language.main env0 { model_type := "nope", num_prompts := 1, num_audios := 1, seed := none } =
      Except.error ("Model type " ++ "nope" ++ " is not supported.") :=
  (main_rejects_unknown_model_key env0
    { model_type := "nope", num_prompts := 1, num_audios := 1, seed := none }).1 (by rfl)

/-- C8 is a code bug: the voxtral builder populates `prompt_token_ids` with
the bare token list the tokenizer returns, never with the
channel-name-to-token-ids mapping the `ModelRequestData` declaration
annotates. -/
theorem run_voxtral_token_ids_bare_list (env : Env) (q : String) :
    ∃ r, run_voxtral env q 1 = Except.ok r ∧
      (∃ ids, r.prompt_token_ids = some (TokenPayload.asList ids)) ∧
      ∀ d, r.prompt_token_ids ≠ some (TokenPayload.asDict d) :=
  ⟨_, rfl, ⟨_, rfl⟩, fun _ h => TokenPayload.noConfusion (Option.some.inj h)⟩

/-- C9: `main` with a non-positive `--num-prompts` never reaches the
generation call (the result is an error), and a successful run implies the
count was positive. -/
theorem main_requires_positive_num_prompts (env : Env) (args : Args) :
    (args.num_prompts ≤ 0 → exceptOk (audio_language.main env args) = false) ∧
    (∀ res, audio_language.main env args = Except.ok res → 0 < args.num_prompts) := by
  have h1 : args.num_prompts ≤ 0 → exceptOk (audio_language.main env args) = false := by
    intro h
    cases hbr : builtRequest env args with
    | error e => simp [audio_language.main, hbr, exceptOk]
    | ok req => simp [audio_language.main, hbr, runRequest, h, exceptOk]
  refine ⟨h1, fun res h => ?_⟩
  by_contra hneg
  push_neg at hneg
  have h2 := h1 hneg
  rw [h] at h2
  simp [exceptOk] at h2

/-- Witness for C9 at `--num-prompts=0`. -/
theorem main_requires_positive_num_prompts_witness :
    exceptOk (audio_language.main env0
      { model_type := "whisper", num_prompts := 0, num_audios := 1, seed := none }) = false :=
  (main_requires_positive_num_prompts env0
    { model_type := "whisper", num_prompts := 0, num_audios := 1, seed := none }).1 (by decide)

/-- C4: when `main` runs with `--num-prompts=3` and succeeds, `llm.generate`
receives a batch of exactly 3 identical input records, and the LoRA request
list is the builder's (non-empty) adapter list repeated 3 times, or `None`
when the builder supplied no adapter requests. -/
theorem main_three_prompts_replicates (env : Env) (args : Args) (res : RunResult)
    (h3 : args.num_prompts = 3) (hok : audio_language.main env args = Except.ok res) :
    (∃ rec, res.inputs = GenInputs.batch [rec, rec, rec]) ∧
    ∀ req, builtRequest env args = Except.ok req →
      (req.lora_requests = none → res.lora_request = none) ∧
      ∀ l, req.lora_requests = some l → l ≠ [] →
        res.lora_request = some (l ++ l ++ l) := by
  cases hbr : builtRequest env args with
  | error e => rw [audio_language.main, hbr] at hok; cases hok
  | ok req =>
    rw [audio_language.main, hbr] at hok
    unfold runRequest at hok
    dsimp only at hok
    rw [if_neg (show ¬args.num_prompts ≤ 0 by omega)] at hok
    injection hok with hr
    subst hr
    constructor
    · refine ⟨genInput req args.num_audios, ?_⟩
      dsimp only
      rw [h3, if_pos (by decide)]
      rfl
    · intro req' hreq'
      injection hreq' with hr'
      subst hr'
      constructor
      · intro hln
        dsimp only
        rw [hln]
        rfl
      · intro l hl hne
        dsimp only
        rw [h3, hl]
        cases l with
        | nil => exact absurd rfl hne
        | cons x xs => simp [loraFor]

/-- Arguments of the C4 witness scenario:
`--model-type=whisper --num-prompts=3 --num-audios=1`. -/
def args3 : Args :=
  { model_type := "whisper", num_prompts := 3, num_audios := 1, seed := none }

/-- The input record `main` builds in the C4/C10 witness scenarios. -/
def whisperInput : InputRecord :=
  { prompt := some "<|startoftranscript|>"
    prompt_token_ids := none
    multi_modal_data := [("audio", [⟨"mary_had_lamb"⟩])] }

/-- The merged engine arguments of the whisper witness scenarios. -/
def whisperMergedArgs : EngineArgs :=
  { model := "openai/whisper-large-v3-turbo"
    max_model_len := some 448
    max_num_seqs := some 5
    limit_mm_per_prompt := some [("image", 0), ("video", 0), ("audio", 1)] }

/-- What `main` hands to the engine in the C4 witness scenario. -/
def resG : RunResult :=
  { engine_args := whisperMergedArgs
    seed := none
    stop_token_ids := none
    inputs := GenInputs.batch [whisperInput, whisperInput, whisperInput]
    lora_request := none }

/-- Witness for C4 in the whisper scenario with three prompts. -/
theorem main_three_prompts_replicates_witness :
    (∃ rec, resG.inputs = GenInputs.batch [rec, rec, rec]) ∧
    ∀ req, builtRequest env0 args3 = Except.ok req →
      (req.lora_requests = none → resG.lora_request = none) ∧
      ∀ l, req.lora_requests = some l → l ≠ [] →
        resG.lora_request = some (l ++ l ++ l) :=
  main_three_prompts_replicates env0 args3 resG (by decide) (by rfl)

/-- C10: when the chosen builder supplied no multimodal payload (`None` or an
empty dictionary), every input record `main` passes to `generate` carries the
default payload: the first `audio_count` bundled assets under the `audio` key
when the count is positive, the empty dictionary otherwise.  In this model
the `multi_modal_data` field of an input record is not optional, mirroring
line 414 which always sets the key. -/
theorem main_default_multimodal_payload (env : Env) (args : Args) (res : RunResult)
    (req : ModelRequestData) (hok : audio_language.main env args = Except.ok res)
    (hreq : builtRequest env args = Except.ok req)
    (hmm : req.multi_modal_data = none ∨ req.multi_modal_data = some []) :
    ∀ rec ∈ res.inputs.records, rec.multi_modal_data =
      if 0 < args.num_audios then
        [("audio", (audio_assets.take args.num_audios).map AudioAsset.audio_and_sample_rate)]
      else [] := by
  rw [audio_language.main, hreq] at hok
  dsimp only at hok
  unfold runRequest at hok
  by_cases hnp : args.num_prompts ≤ 0
  · rw [if_pos hnp] at hok; cases hok
  · rw [if_neg hnp] at hok
    injection hok with hr
    subst hr
    have hmmres : resolveMM req.multi_modal_data args.num_audios = mmDefault args.num_audios := by
      rcases hmm with h | h <;> simp [resolveMM, h]
    have hgen : (genInput req args.num_audios).multi_modal_data = mmDefault args.num_audios := by
      unfold genInput
      by_cases ht : pyTruthyStr req.prompt
      · rw [if_pos ht]; exact hmmres
      · rw [if_neg ht]; exact hmmres
    intro rec hrec
    dsimp only at hrec
    by_cases hb : 1 < args.num_prompts
    · rw [if_pos hb] at hrec
      dsimp only [GenInputs.records] at hrec
      obtain rfl := List.eq_of_mem_replicate hrec
      rw [hgen]; rfl
    · rw [if_neg hb] at hrec
      dsimp only [GenInputs.records] at hrec
      obtain rfl := List.mem_singleton.mp hrec
      rw [hgen]; rfl

/-- Arguments of the C10 witness scenario:
`--model-type=whisper --num-prompts=1 --num-audios=1`. -/
def args1 : Args :=
  { model_type := "whisper", num_prompts := 1, num_audios := 1, seed := none }

/-- The request the whisper builder returns in the C10 witness scenario;
it carries no multimodal payload. -/
def reqW : ModelRequestData :=
  { engine_args :=
      { model := "openai/whisper-large-v3-turbo"
        max_model_len := some 448
        max_num_seqs := some 5
        limit_mm_per_prompt := some [("audio", 1)] }
    prompt := some "<|startoftranscript|>" }

/-- What `main` hands to the engine in the C10 witness scenario. -/
def resW : RunResult :=
  { engine_args := whisperMergedArgs
    seed := none
    stop_token_ids := none
    inputs := GenInputs.single whisperInput
    lora_request := none }

/-- Witness for C10 in the whisper scenario with one prompt and one audio. -/
theorem main_default_multimodal_payload_witness :
    whisperInput.multi_modal_data =
      if 0 < args1.num_audios then
        [("audio", (audio_assets.take args1.num_audios).map AudioAsset.audio_and_sample_rate)]
      else [] :=
  main_default_multimodal_payload env0 args1 resW reqW (by rfl) (by rfl) (Or.inl rfl)
    whisperInput (by simp [resW, GenInputs.records])
